import Mathlib

/-!
Shallow embedding of the `service_discovery` module of the crust repository
(`src/src/service_discovery/mod.rs`): a UDP beacon that lets peers on the same
broadcast domain find each other.

External effects (the mio UDP socket, the event loop registration table and the
reactor core's maps) are made explicit: socket recv/send outcomes are inputs,
the event-loop interest table and the core's token/context/state maps are
explicit association lists threaded through each operation.
-/

/-- An IP address paired with a port, mirroring `std::net::SocketAddr` as used by
the module (the IP is kept as its textual form, the port as a number). -/
structure SocketAddr where
  ip : String
  port : Nat
deriving DecidableEq, Repr

/-- Mirrors `nat::MappedAddr`: a socket address together with the flag telling
whether the mapping was observed only through a specific remote peer
(`nat_restricted`), in which case it must not be advertised. -/
structure MappedAddr where
  addr : SocketAddr
  nat_restricted : Bool
deriving DecidableEq, Repr

/-- Mirrors the `DiscoveryMsg` enum of `service_discovery/mod.rs`. -/
inductive DiscoveryMsg where
  | Request (guid : Nat)
  | Response (listeners : List SocketAddr)
deriving DecidableEq, Repr

/-- Eight little-endian bytes of a 64-bit number. -/
def natBytes8 (n : Nat) : List Nat :=
  (List.range 8).map (fun i => n / 256 ^ i % 256)

/-- Bytes of the textual IP of an address. -/
def ipBytes (s : String) : List Nat :=
  s.data.map (fun c => c.toNat % 256)

/-- Byte encoding of one socket address: length-prefixed IP text plus two port
bytes. -/
def addrBytes (a : SocketAddr) : List Nat :=
  natBytes8 (ipBytes a.ip).length ++ ipBytes a.ip ++ [a.port % 256, a.port / 256 % 256]

/-- Modelled from the spec: `maidsafe_utilities::serialisation::serialise` for
`DiscoveryMsg` is outside this repository; the spec describes the datagram as a
tagged, length-prefixed binary encoding of `Request{guid: u64}` or
`Response([SocketAddress])`.  One tag byte, then for a request the eight guid
bytes, for a response the eight length bytes followed by each address. -/
def serialiseBytes : DiscoveryMsg → List Nat
  | DiscoveryMsg.Request guid => 0 :: natBytes8 guid
  | DiscoveryMsg.Response listeners =>
      1 :: natBytes8 listeners.length ++ (listeners.map addrBytes).flatten

/-- Size of `ServiceDiscovery::read_buf`, the receive scratch buffer
(`read_buf: [u8; 1024]`, line 55 of the module). -/
def read_buf_size : Nat := 1024

/-- A mio `EventSet`: which readiness kinds a registration asks for. -/
structure EventSet where
  readable : Bool
  writable : Bool
  error : Bool
  hup : Bool
deriving DecidableEq, Repr

/-- Association-list lookup, mirroring `HashMap::get`. -/
def alLookup (k : Nat) (l : List (Nat × α)) : Option α :=
  (l.find? (fun kv => kv.1 == k)).map (·.2)

/-- Association-list remove, mirroring `HashMap::remove`'s effect on the map. -/
def alErase (k : Nat) (l : List (Nat × α)) : List (Nat × α) :=
  l.filter (fun kv => kv.1 != k)

/-- Association-list insert-or-replace, mirroring `HashMap::insert`. -/
def alInsert (k : Nat) (v : α) (l : List (Nat × α)) : List (Nat × α) :=
  (k, v) :: alErase k l

/-- Modelled from the spec: the reactor `Core` (module `common`, not under
`src/`) owns a monotonically increasing token allocator, a map Token → Context
and a map Context → State; the state value is identified here by the token of
the owning `ServiceDiscovery`. -/
structure Core where
  next_token : Nat
  contexts : List (Nat × Nat)
  states : List (Nat × Nat)
deriving DecidableEq, Repr

/-- The mio event loop's registration table: which interest set each token's
socket is registered with. -/
structure EventLoopState where
  registrations : List (Nat × EventSet)
deriving DecidableEq, Repr

/-- Mirrors the `ServiceDiscovery` struct.  The UDP socket is represented by
the local port it is bound to; `read_buf` is a scratch buffer whose contents
never outlive one `read` call, so it is abstracted into the datagram argument
of `read` (only its size, `read_buf_size`, matters). -/
structure ServiceDiscovery where
  token : Nat
  socket : Nat
  remote_addr : SocketAddr
  listen : Bool
  our_listeners : List MappedAddr
  seek_peers_req : List Nat
  reply_to : List SocketAddr
  observers : List Nat
  guid : Nat
deriving DecidableEq, Repr

/-- Outcome of a mio UDP `send_to` call, as distinguished by the module:
`Ok(Some(n))`, `Ok(None)`, `Err(Interrupted)`, `Err(WouldBlock)`, or any other
error. -/
inductive SendRes where
  | okSome (n : Nat)
  | okNone
  | errInterrupted
  | errWouldBlock
  | errOther
deriving DecidableEq, Repr

/-- Outcome of a mio UDP `recv_from` call, as distinguished by the module:
`Ok(Some((bytes, peer)))` (the datagram landing in `read_buf`), `Ok(None)`,
`Err(Interrupted)`, or any other error. -/
inductive RecvRes where
  | okSome (datagram : List Nat) (peer : SocketAddr)
  | okNone
  | errInterrupted
  | errOther
deriving DecidableEq, Repr

/-- The interest set the module re-registers with after a write: `error`,
`hup` and `readable` always, `writable` exactly when `reply_to` is
non-empty. -/
def eventSetFor (reply_to : List SocketAddr) : EventSet :=
  if reply_to.isEmpty then
    { readable := true, writable := false, error := true, hup := true }
  else
    { readable := true, writable := true, error := true, hup := true }

/-- Result of `write_impl`: the updated state, the updated event-loop table,
and the datagram whose send was attempted (destination and bytes), if any. -/
structure WriteOut where
  sd : ServiceDiscovery
  el : EventLoopState
  sent : Option (SocketAddr × List Nat)
deriving DecidableEq, Repr

/-- Mirrors `ServiceDiscovery::write_impl` (lines 159-194): serialise the
current non-restricted listeners into a `Response`; pop at most one pending
peer from the front of `reply_to` and attempt the send (`sendRes` is the UDP
outcome); on `Ok(None)`, `Interrupted` or `WouldBlock` push the peer back onto
the front; on any other error propagate it; finally re-register the socket
with `eventSetFor` of the remaining queue. -/
def ServiceDiscovery.write_impl (s : ServiceDiscovery) (el : EventLoopState)
    (sendRes : SendRes) : Except Unit WriteOut :=
  let our_current_listeners :=
    (s.our_listeners.filter (fun elt => !elt.nat_restricted)).map (fun elt => elt.addr)
  let serialised_resp := serialiseBytes (DiscoveryMsg.Response our_current_listeners)
  match s.reply_to with
  | [] =>
      Except.ok
        ⟨s, ⟨alInsert s.token (eventSetFor s.reply_to) el.registrations⟩, none⟩
  | peer_addr :: rest =>
      match sendRes with
      | SendRes.okSome _ =>
          let s' := { s with reply_to := rest }
          Except.ok
            ⟨s', ⟨alInsert s.token (eventSetFor rest) el.registrations⟩,
              some (peer_addr, serialised_resp)⟩
      | SendRes.okNone =>
          Except.ok
            ⟨s, ⟨alInsert s.token (eventSetFor s.reply_to) el.registrations⟩,
              some (peer_addr, serialised_resp)⟩
      | SendRes.errInterrupted =>
          Except.ok
            ⟨s, ⟨alInsert s.token (eventSetFor s.reply_to) el.registrations⟩,
              some (peer_addr, serialised_resp)⟩
      | SendRes.errWouldBlock =>
          Except.ok
            ⟨s, ⟨alInsert s.token (eventSetFor s.reply_to) el.registrations⟩,
              some (peer_addr, serialised_resp)⟩
      | SendRes.errOther => Except.error ()

/-- Mirrors `State::terminate` for `ServiceDiscovery` (lines 215-222):
deregister the UDP socket from the event loop, remove the token→context entry
from the core and, when one was present, remove the context→state entry. -/
def ServiceDiscovery.terminate (s : ServiceDiscovery) (core : Core)
    (el : EventLoopState) : Core × EventLoopState :=
  let el' : EventLoopState := ⟨alErase s.token el.registrations⟩
  match alLookup s.token core.contexts with
  | some context =>
      ({ core with
          contexts := alErase s.token core.contexts,
          states := alErase context core.states }, el')
  | none => (core, el')

/-- Result of `ServiceDiscovery::read`: the state if it was retained (`none`
when the state terminated and was dropped from the reactor), the updated core
and event-loop table, the peer address pushed onto `reply_to` (if any), the
datagram whose send was attempted by the nested write (if any), and the
listener lists handed to each observer (if any). -/
structure ReadOut where
  sd : Option ServiceDiscovery
  core : Core
  el : EventLoopState
  queued : Option SocketAddr
  sent : Option (SocketAddr × List Nat)
  notified : List (Nat × List SocketAddr)
deriving DecidableEq, Repr

/-- Mirrors `ServiceDiscovery::read` (lines 119-150).  `recv` is the
`recv_from` outcome; `decode` stands for `maidsafe_utilities` `deserialise` on
the received bytes (`none` on serialisation failure); `obsOk` tells whether an
observer channel accepts a send; `sendRes` is the UDP outcome of the nested
write when a `Request` is answered.  `Ok(None)` and `Interrupted` return with
the state unchanged; any other recv error terminates the state; an
undecodable datagram is ignored; a `Request` is answered only when `listen`
is set and the guid is not our own; a `Response` is fanned out to observers,
retaining exactly those whose send succeeds. -/
def ServiceDiscovery.read (s : ServiceDiscovery) (core : Core)
    (el : EventLoopState) (recv : RecvRes)
    (decode : List Nat → Option DiscoveryMsg) (obsOk : Nat → Bool)
    (sendRes : SendRes) : ReadOut :=
  match recv with
  | RecvRes.okNone => ⟨some s, core, el, none, none, []⟩
  | RecvRes.errInterrupted => ⟨some s, core, el, none, none, []⟩
  | RecvRes.errOther =>
      let (core', el') := s.terminate core el
      ⟨none, core', el', none, none, []⟩
  | RecvRes.okSome datagram peer =>
      match decode datagram with
      | none => ⟨some s, core, el, none, none, []⟩
      | some (DiscoveryMsg.Request guid) =>
          if s.listen && s.guid != guid then
            let s1 := { s with reply_to := s.reply_to ++ [peer] }
            match s1.write_impl el sendRes with
            | Except.ok out => ⟨some out.sd, core, out.el, some peer, out.sent, []⟩
            | Except.error _ =>
                let (core', el') := s1.terminate core el
                ⟨none, core', el', some peer, none, []⟩
          else ⟨some s, core, el, none, none, []⟩
      | some (DiscoveryMsg.Response peer_listeners) =>
          ⟨some { s with observers := s.observers.filter obsOk }, core, el,
            none, none, s.observers.map (fun o => (o, peer_listeners))⟩

/-- Result of `seek_peers`: the state after the call, the call's result, and
the attempted datagram (bytes and destination). -/
structure SeekOut where
  sd : ServiceDiscovery
  result : Except Unit Unit
  sent : List Nat × SocketAddr
deriving Repr

/-- Mirrors `ServiceDiscovery::seek_peers` (lines 109-112): send the
pre-serialised request to the broadcast address; any send error propagates;
no field of the state is touched. -/
def ServiceDiscovery.seek_peers (s : ServiceDiscovery) (sendRes : SendRes) :
    SeekOut :=
  match sendRes with
  | SendRes.okSome _ => ⟨s, Except.ok (), (s.seek_peers_req, s.remote_addr)⟩
  | SendRes.okNone => ⟨s, Except.ok (), (s.seek_peers_req, s.remote_addr)⟩
  | SendRes.errInterrupted => ⟨s, Except.error (), (s.seek_peers_req, s.remote_addr)⟩
  | SendRes.errWouldBlock => ⟨s, Except.error (), (s.seek_peers_req, s.remote_addr)⟩
  | SendRes.errOther => ⟨s, Except.error (), (s.seek_peers_req, s.remote_addr)⟩

/-- Mirrors `ServiceDiscovery::set_listen` (lines 104-106). -/
def ServiceDiscovery.set_listen (s : ServiceDiscovery) (listen : Bool) :
    ServiceDiscovery :=
  { s with listen := listen }

/-- Mirrors `ServiceDiscovery::register_observer` (lines 115-117). -/
def ServiceDiscovery.register_observer (s : ServiceDiscovery) (obs : Nat) :
    ServiceDiscovery :=
  { s with observers := s.observers ++ [obs] }

/-- The recursion of `get_socket` (lines 229-250), with the number of ports
still to try above the current one made explicit: try to bind `0.0.0.0:port`
(`free` tells whether a bind succeeds); on failure move to `port + 1`, and
give up after port 65535 (`u16::MAX`). -/
def get_socket_go (free : SocketAddr → Bool) : Nat → Nat → Except Unit Nat
  | fuel, port =>
      if free ⟨"0.0.0.0", port⟩ then Except.ok port
      else
        match fuel with
        | 0 => Except.error ()
        | fuel' + 1 => get_socket_go free fuel' (port + 1)

/-- Mirrors `get_socket` (lines 229-250): returns the first port from `port`
up to 65535 on which a bind succeeds, and an error when every one of them
fails. -/
def get_socket (free : SocketAddr → Bool) (port : Nat) : Except Unit Nat :=
  get_socket_go free (65535 - port) port

/-- Mirrors `ServiceDiscovery::start` (lines 64-100): allocate a token, bind a
socket via `get_socket`, fix the broadcast target `255.255.255.255:port` from
the requested port, pre-serialise the request with a fresh `guid`, register
the socket for `error`, `hup` and `readable`, and insert the token→context
and context→state entries into the core. -/
def ServiceDiscovery.start (free : SocketAddr → Bool) (guid : Nat)
    (our_listeners : List MappedAddr) (context : Nat) (port : Nat)
    (core : Core) (el : EventLoopState) :
    Except Unit (ServiceDiscovery × Core × EventLoopState) :=
  let token := core.next_token
  let core0 := { core with next_token := core.next_token + 1 }
  match get_socket free port with
  | Except.error _ => Except.error ()
  | Except.ok sockPort =>
      let service_discovery : ServiceDiscovery :=
        { token := token
          socket := sockPort
          remote_addr := ⟨"255.255.255.255", port⟩
          listen := false
          our_listeners := our_listeners
          seek_peers_req := serialiseBytes (DiscoveryMsg.Request guid)
          reply_to := []
          observers := []
          guid := guid }
      let el' : EventLoopState :=
        ⟨alInsert token
          { readable := true, writable := false, error := true, hup := true }
          el.registrations⟩
      let core' :=
        { core0 with
            contexts := alInsert token context core0.contexts,
            states := alInsert context token core0.states }
      Except.ok (service_discovery, core', el')

lemma alLookup_alInsert (k : Nat) (v : α) (l : List (Nat × α)) :
    alLookup k (alInsert k v l) = some v := by
  simp [alLookup, alInsert, List.find?_cons]

lemma alLookup_alErase_self (k : Nat) (l : List (Nat × α)) :
    alLookup k (alErase k l) = none := by
  induction l with
  | nil => rfl
  | cons kv rest ih =>
      by_cases h : kv.1 = k
      · simp only [alErase, List.filter_cons, h, bne_self_eq_false, if_false]
        exact ih
      · have h2 : alErase k (kv :: rest) = kv :: alErase k rest := by
          simp [alErase, List.filter_cons, h]
        have hbe : ¬ ((kv.1 == k) = true) := by simp [h]
        rw [h2]
        unfold alLookup at ih ⊢
        rw [show List.find? (fun kv : Nat × α => kv.1 == k) (kv :: alErase k rest)
              = List.find? (fun kv : Nat × α => kv.1 == k) (alErase k rest) from
            List.find?_cons_of_neg _ hbe]
        exact ih

lemma eventSetFor_eq (q : List SocketAddr) :
    eventSetFor q =
      { readable := true, writable := !q.isEmpty, error := true, hup := true } := by
  cases q <;> simp [eventSetFor, List.isEmpty]

lemma length_natBytes8 (n : Nat) : (natBytes8 n).length = 8 := by
  simp [natBytes8]

lemma length_serialise_request (g : Nat) :
    (serialiseBytes (DiscoveryMsg.Request g)).length = 9 := by
  simp [serialiseBytes, length_natBytes8]

lemma length_serialise_response (l : List SocketAddr) :
    (serialiseBytes (DiscoveryMsg.Response l)).length =
      9 + ((l.map addrBytes).flatten).length := by
  simp [serialiseBytes, length_natBytes8]
  omega

lemma get_socket_go_ok (free : SocketAddr → Bool) (fuel : Nat) :
    ∀ p q : Nat, get_socket_go free fuel p = Except.ok q →
      p ≤ q ∧ q ≤ p + fuel ∧ free ⟨"0.0.0.0", q⟩ = true ∧
        ∀ r, p ≤ r → r < q → free ⟨"0.0.0.0", r⟩ = false := by
  induction fuel with
  | zero =>
      intro p q h
      unfold get_socket_go at h
      by_cases hf : free ⟨"0.0.0.0", p⟩ = true
      · simp [hf] at h
        subst h
        exact ⟨Nat.le_refl p, by omega, hf, fun r h1 h2 => by omega⟩
      · simp [hf] at h
  | succ fuel ih =>
      intro p q h
      unfold get_socket_go at h
      by_cases hf : free ⟨"0.0.0.0", p⟩ = true
      · simp [hf] at h
        subst h
        exact ⟨Nat.le_refl p, by omega, hf, fun r h1 h2 => by omega⟩
      · rw [Bool.not_eq_true] at hf
        simp [hf] at h
        obtain ⟨h1, h2, h3, h4⟩ := ih (p + 1) q h
        refine ⟨by omega, by omega, h3, ?_⟩
        intro r hr1 hr2
        rcases Nat.eq_or_lt_of_le hr1 with he | hl
        · rw [← he]
          exact hf
        · exact h4 r (by omega) hr2

lemma get_socket_go_err (free : SocketAddr → Bool) (fuel : Nat) :
    ∀ p : Nat, (get_socket_go free fuel p = Except.error () ↔
      ∀ r, p ≤ r → r ≤ p + fuel → free ⟨"0.0.0.0", r⟩ = false) := by
  induction fuel with
  | zero =>
      intro p
      unfold get_socket_go
      by_cases hf : free ⟨"0.0.0.0", p⟩ = true
      · refine iff_of_false (by simp [hf]) (fun hr => ?_)
        have := hr p (Nat.le_refl p) (by omega)
        rw [this] at hf
        exact Bool.false_ne_true hf
      · rw [Bool.not_eq_true] at hf
        refine iff_of_true (by simp [hf]) (fun r h1 h2 => ?_)
        have : r = p := by omega
        rw [this]
        exact hf
  | succ fuel ih =>
      intro p
      unfold get_socket_go
      by_cases hf : free ⟨"0.0.0.0", p⟩ = true
      · refine iff_of_false (by simp [hf]) (fun hr => ?_)
        have := hr p (Nat.le_refl p) (by omega)
        rw [this] at hf
        exact Bool.false_ne_true hf
      · rw [Bool.not_eq_true] at hf
        simp only [hf, Bool.false_eq_true, if_false]
        rw [ih (p + 1)]
        constructor
        · intro hall r h1 h2
          rcases Nat.eq_or_lt_of_le h1 with he | hl
          · rw [← he]
            exact hf
          · exact hall r (by omega) (by omega)
        · intro hall r h1 h2
          exact hall r (by omega) (by omega)

/-- C3: for every requested port `p ≤ 65535`, `get_socket` returns the socket
bound at the first port in `p, p+1, ..., 65535` whose bind succeeds, and
returns an error exactly when the bind fails at every port from `p` through
65535. -/
theorem c3_get_socket_scans_upward (free : SocketAddr → Bool) (p : Nat)
    (hp : p ≤ 65535) :
    (∀ q, get_socket free p = Except.ok q →
        p ≤ q ∧ q ≤ 65535 ∧ free ⟨"0.0.0.0", q⟩ = true ∧
          ∀ r, p ≤ r → r < q → free ⟨"0.0.0.0", r⟩ = false) ∧
    (get_socket free p = Except.error () ↔
        ∀ r, p ≤ r → r ≤ 65535 → free ⟨"0.0.0.0", r⟩ = false) := by
  have hpf : p + (65535 - p) = 65535 := by omega
  constructor
  · intro q h
    obtain ⟨h1, h2, h3, h4⟩ := get_socket_go_ok free (65535 - p) p q h
    exact ⟨h1, by omega, h3, h4⟩
  · rw [get_socket, get_socket_go_err free (65535 - p) p, hpf]

/-- C3 witness: with every port above 9999 free, `get_socket` lands on port
10000; with no port free, `get_socket` starting at 65530 errors. -/
theorem c3_witness :
    ((fun a : SocketAddr => a.port != 9999) ⟨"0.0.0.0", 10000⟩ = true) ∧
    get_socket (fun _ => false) 65530 = Except.error () := by
  constructor
  · exact ((c3_get_socket_scans_upward (fun a => a.port != 9999) 9999
      (by decide)).1 10000 rfl).2.2.1
  · exact (c3_get_socket_scans_upward (fun _ => false) 65530
      (by decide)).2.mpr (fun r _ _ => rfl)

lemma mem_response_listeners (ls : List MappedAddr) :
    (∀ a ∈ (ls.filter (fun e => !e.nat_restricted)).map (fun e => e.addr),
        ∃ e ∈ ls, e.nat_restricted = false ∧ e.addr = a) ∧
    (∀ e ∈ ls, e.nat_restricted = false →
        e.addr ∈ (ls.filter (fun e => !e.nat_restricted)).map (fun e => e.addr)) := by
  constructor
  · intro a ha
    simp only [List.mem_map, List.mem_filter] at ha
    obtain ⟨e, ⟨he, hr⟩, rfl⟩ := ha
    exact ⟨e, he, by simpa using hr, rfl⟩
  · intro e he hf
    simp only [List.mem_map, List.mem_filter]
    exact ⟨e, ⟨he, by simp [hf]⟩, rfl⟩

/-- C1: every `Response` datagram built by `write_impl` is the serialisation
of exactly the addresses of the entries of `our_listeners` whose
`nat_restricted` flag is false at the moment the response is serialised;
every listed address comes from an entry with `nat_restricted = false`, and
every such entry's address is listed. -/
theorem c1_response_lists_only_unrestricted (s : ServiceDiscovery)
    (el : EventLoopState) (res : SendRes) (out : WriteOut) (p : SocketAddr)
    (bytes : List Nat) (hok : s.write_impl el res = Except.ok out)
    (hsent : out.sent = some (p, bytes)) :
    bytes = serialiseBytes (DiscoveryMsg.Response
        ((s.our_listeners.filter (fun e => !e.nat_restricted)).map (fun e => e.addr))) ∧
    (∀ a ∈ (s.our_listeners.filter (fun e => !e.nat_restricted)).map (fun e => e.addr),
        ∃ e ∈ s.our_listeners, e.nat_restricted = false ∧ e.addr = a) ∧
    (∀ e ∈ s.our_listeners, e.nat_restricted = false →
        e.addr ∈ (s.our_listeners.filter (fun e => !e.nat_restricted)).map (fun e => e.addr)) := by
  cases hq : s.reply_to with
  | nil =>
      simp only [ServiceDiscovery.write_impl, hq] at hok
      simp only [Except.ok.injEq] at hok
      subst hok
      simp at hsent
  | cons peer rest =>
      cases res with
      | okSome n =>
          simp only [ServiceDiscovery.write_impl, hq] at hok
          simp only [Except.ok.injEq] at hok
          subst hok
          simp only [Option.some.injEq, Prod.mk.injEq] at hsent
          exact ⟨hsent.2.symm, (mem_response_listeners s.our_listeners).1,
            (mem_response_listeners s.our_listeners).2⟩
      | okNone =>
          simp only [ServiceDiscovery.write_impl, hq] at hok
          simp only [Except.ok.injEq] at hok
          subst hok
          simp only [Option.some.injEq, Prod.mk.injEq] at hsent
          exact ⟨hsent.2.symm, (mem_response_listeners s.our_listeners).1,
            (mem_response_listeners s.our_listeners).2⟩
      | errInterrupted =>
          simp only [ServiceDiscovery.write_impl, hq] at hok
          simp only [Except.ok.injEq] at hok
          subst hok
          simp only [Option.some.injEq, Prod.mk.injEq] at hsent
          exact ⟨hsent.2.symm, (mem_response_listeners s.our_listeners).1,
            (mem_response_listeners s.our_listeners).2⟩
      | errWouldBlock =>
          simp only [ServiceDiscovery.write_impl, hq] at hok
          simp only [Except.ok.injEq] at hok
          subst hok
          simp only [Option.some.injEq, Prod.mk.injEq] at hsent
          exact ⟨hsent.2.symm, (mem_response_listeners s.our_listeners).1,
            (mem_response_listeners s.our_listeners).2⟩
      | errOther =>
          simp only [ServiceDiscovery.write_impl, hq] at hok
          exact Except.noConfusion hok

/-- C1 witness: a concrete state holding one unrestricted and one restricted
listener and one pending peer sends the response listing exactly the
unrestricted address. -/
theorem c1_witness :
    serialiseBytes (DiscoveryMsg.Response [⟨"1.2.3.4", 80⟩]) =
      serialiseBytes (DiscoveryMsg.Response
        ((([⟨⟨"1.2.3.4", 80⟩, false⟩, ⟨⟨"5.6.7.8", 81⟩, true⟩] :
            List MappedAddr).filter (fun e => !e.nat_restricted)).map (fun e => e.addr))) ∧
    (∀ a ∈ (([⟨⟨"1.2.3.4", 80⟩, false⟩, ⟨⟨"5.6.7.8", 81⟩, true⟩] :
        List MappedAddr).filter (fun e => !e.nat_restricted)).map (fun e => e.addr),
      ∃ e ∈ ([⟨⟨"1.2.3.4", 80⟩, false⟩, ⟨⟨"5.6.7.8", 81⟩, true⟩] : List MappedAddr),
        e.nat_restricted = false ∧ e.addr = a) ∧
    (∀ e ∈ ([⟨⟨"1.2.3.4", 80⟩, false⟩, ⟨⟨"5.6.7.8", 81⟩, true⟩] : List MappedAddr),
      e.nat_restricted = false →
        e.addr ∈ (([⟨⟨"1.2.3.4", 80⟩, false⟩, ⟨⟨"5.6.7.8", 81⟩, true⟩] :
          List MappedAddr).filter (fun e => !e.nat_restricted)).map (fun e => e.addr)) :=
  c1_response_lists_only_unrestricted
    ⟨0, 9999, ⟨"255.255.255.255", 9999⟩, true,
      [⟨⟨"1.2.3.4", 80⟩, false⟩, ⟨⟨"5.6.7.8", 81⟩, true⟩], [], [⟨"9.9.9.9", 1⟩], [], 7⟩
    ⟨[]⟩ SendRes.okNone _ _ _ rfl rfl

/-- C4: on a writable event `write_impl` pops at most one pending peer from
the front of `reply_to` and sends it the serialised response; when the UDP
send returns `Ok(None)`, `WouldBlock` or `Interrupted` the queue is left as it
was (the peer is pushed back onto the front); afterwards the socket is
registered with `readable`, `error` and `hup` interest always and `writable`
interest exactly when the remaining queue is non-empty. -/
theorem c4_write_pops_requeues_reregisters (s : ServiceDiscovery)
    (el : EventLoopState) (res : SendRes) (out : WriteOut)
    (hok : s.write_impl el res = Except.ok out) :
    (s.reply_to = [] → out.sd = s ∧ out.sent = none) ∧
    (∀ p rest, s.reply_to = p :: rest →
        out.sent = some (p, serialiseBytes (DiscoveryMsg.Response
          ((s.our_listeners.filter (fun e => !e.nat_restricted)).map (fun e => e.addr)))) ∧
        ((∃ n, res = SendRes.okSome n) → out.sd = { s with reply_to := rest }) ∧
        (res = SendRes.okNone ∨ res = SendRes.errInterrupted ∨ res = SendRes.errWouldBlock →
            out.sd = s)) ∧
    alLookup s.token out.el.registrations =
      some { readable := true, writable := !out.sd.reply_to.isEmpty,
             error := true, hup := true } := by
  cases hq : s.reply_to with
  | nil =>
      simp only [ServiceDiscovery.write_impl, hq] at hok
      simp only [Except.ok.injEq] at hok
      subst hok
      refine ⟨fun _ => ⟨rfl, rfl⟩, ?_, ?_⟩
      · intro p rest hpr
        exact List.noConfusion hpr
      · simp [alLookup_alInsert, eventSetFor_eq, hq]
  | cons peer rest0 =>
      cases res with
      | okSome n =>
          simp only [ServiceDiscovery.write_impl, hq] at hok
          simp only [Except.ok.injEq] at hok
          subst hok
          refine ⟨?_, ?_, ?_⟩
          · intro h
            exact List.noConfusion h
          · intro p rest hpr
            injection hpr with h1 h2
            subst h1
            subst h2
            refine ⟨rfl, fun _ => rfl, ?_⟩
            rintro (h | h | h) <;> exact SendRes.noConfusion h
          · simp [alLookup_alInsert, eventSetFor_eq]
      | okNone =>
          simp only [ServiceDiscovery.write_impl, hq] at hok
          simp only [Except.ok.injEq] at hok
          subst hok
          refine ⟨?_, ?_, ?_⟩
          · intro h
            exact List.noConfusion h
          · intro p rest hpr
            injection hpr with h1 h2
            subst h1
            subst h2
            refine ⟨rfl, ?_, fun _ => rfl⟩
            rintro ⟨n, hn⟩
            exact SendRes.noConfusion hn
          · simp [alLookup_alInsert, eventSetFor_eq, hq]
      | errInterrupted =>
          simp only [ServiceDiscovery.write_impl, hq] at hok
          simp only [Except.ok.injEq] at hok
          subst hok
          refine ⟨?_, ?_, ?_⟩
          · intro h
            exact List.noConfusion h
          · intro p rest hpr
            injection hpr with h1 h2
            subst h1
            subst h2
            refine ⟨rfl, ?_, fun _ => rfl⟩
            rintro ⟨n, hn⟩
            exact SendRes.noConfusion hn
          · simp [alLookup_alInsert, eventSetFor_eq, hq]
      | errWouldBlock =>
          simp only [ServiceDiscovery.write_impl, hq] at hok
          simp only [Except.ok.injEq] at hok
          subst hok
          refine ⟨?_, ?_, ?_⟩
          · intro h
            exact List.noConfusion h
          · intro p rest hpr
            injection hpr with h1 h2
            subst h1
            subst h2
            refine ⟨rfl, ?_, fun _ => rfl⟩
            rintro ⟨n, hn⟩
            exact SendRes.noConfusion hn
          · simp [alLookup_alInsert, eventSetFor_eq, hq]
      | errOther =>
          simp only [ServiceDiscovery.write_impl, hq] at hok
          exact Except.noConfusion hok

/-- C4 witness: a concrete state with one pending peer whose send would
block keeps `writable` interest registered. -/
theorem c4_witness :
    (ServiceDiscovery.write_impl
        ⟨0, 9999, ⟨"255.255.255.255", 9999⟩, true, [], [], [⟨"1.2.3.4", 80⟩], [], 7⟩
        ⟨[]⟩ SendRes.errWouldBlock).map
      (fun out => alLookup 0 out.el.registrations) =
    Except.ok (some { readable := true, writable := true, error := true, hup := true }) := by
  have h := c4_write_pops_requeues_reregisters
      ⟨0, 9999, ⟨"255.255.255.255", 9999⟩, true, [], [], [⟨"1.2.3.4", 80⟩], [], 7⟩
      ⟨[]⟩ SendRes.errWouldBlock _ rfl
  exact congrArg Except.ok h.2.2

/-- C2: an inbound `Request{guid}` queues the sender's address for a reply if
and only if `listen` is set and the guid differs from our own; a request
carrying our own guid queues nothing and leaves the whole state (in
particular `reply_to`) unchanged. -/
theorem c2_request_loopback_suppression (s : ServiceDiscovery) (core : Core)
    (el : EventLoopState) (bytes : List Nat) (peer : SocketAddr)
    (decode : List Nat → Option DiscoveryMsg) (obsOk : Nat → Bool)
    (sendRes : SendRes) (g : Nat) (out : ReadOut)
    (hdec : decode bytes = some (DiscoveryMsg.Request g))
    (hout : s.read core el (RecvRes.okSome bytes peer) decode obsOk sendRes = out) :
    (out.queued = some peer ↔ (s.listen = true ∧ s.guid ≠ g)) ∧
    (g = s.guid → out = ⟨some s, core, el, none, none, []⟩) := by
  subst hout
  by_cases hl : s.listen = true
  · by_cases hg : s.guid = g
    · have hcond : (s.listen && (s.guid != g)) = false := by
        simp [hg]
      simp [ServiceDiscovery.read, hdec, hcond, hg]
    · have hcond : (s.listen && (s.guid != g)) = true := by
        simp only [hl, Bool.true_and, bne_iff_ne, ne_eq]
        exact hg
      have hqd : (s.read core el (RecvRes.okSome bytes peer) decode obsOk
          sendRes).queued = some peer := by
        simp only [ServiceDiscovery.read, hdec, hcond, if_true]
        cases hw : ServiceDiscovery.write_impl
            { s with reply_to := s.reply_to ++ [peer] } el sendRes <;> simp [hw]
      exact ⟨⟨fun _ => ⟨hl, hg⟩, fun _ => hqd⟩, fun h => absurd h.symm hg⟩
  · have hcond : (s.listen && (s.guid != g)) = false := by
      rw [Bool.not_eq_true] at hl
      simp [hl]
    rw [Bool.not_eq_true] at hl
    simp [ServiceDiscovery.read, hdec, hcond, hl]

/-- C2 witness: a listening instance with guid 7 queues the sender of a
request carrying guid 5. -/
theorem c2_witness :
    (ServiceDiscovery.read ⟨0, 9999, ⟨"255.255.255.255", 9999⟩, true, [], [], [], [], 7⟩
        ⟨1, [], []⟩ ⟨[]⟩ (RecvRes.okSome [] ⟨"1.2.3.4", 80⟩)
        (fun _ => some (DiscoveryMsg.Request 5)) (fun _ => true)
        SendRes.okNone).queued = some ⟨"1.2.3.4", 80⟩ := by
  have h := c2_request_loopback_suppression
      ⟨0, 9999, ⟨"255.255.255.255", 9999⟩, true, [], [], [], [], 7⟩
      ⟨1, [], []⟩ ⟨[]⟩ [] ⟨"1.2.3.4", 80⟩
      (fun _ => some (DiscoveryMsg.Request 5)) (fun _ => true)
      SendRes.okNone 5 _ rfl rfl
  exact h.1.mpr ⟨rfl, by decide⟩

/-- C5: in `read`, `Ok(None)` and `Err(Interrupted)` from recv leave the
state unchanged and retained, a datagram that fails to deserialise is
ignored with the state unchanged and retained, and any other recv error
terminates the state: it is dropped, its socket deregistered, and its
token/context entries removed from the core. -/
theorem c5_read_error_handling (s : ServiceDiscovery) (core : Core)
    (el : EventLoopState) (decode : List Nat → Option DiscoveryMsg)
    (obsOk : Nat → Bool) (sendRes : SendRes) :
    (s.read core el RecvRes.okNone decode obsOk sendRes =
        ⟨some s, core, el, none, none, []⟩) ∧
    (s.read core el RecvRes.errInterrupted decode obsOk sendRes =
        ⟨some s, core, el, none, none, []⟩) ∧
    (∀ bytes peer, decode bytes = none →
        s.read core el (RecvRes.okSome bytes peer) decode obsOk sendRes =
          ⟨some s, core, el, none, none, []⟩) ∧
    (∀ ctx out, alLookup s.token core.contexts = some ctx →
        s.read core el RecvRes.errOther decode obsOk sendRes = out →
        out.sd = none ∧ alLookup s.token out.el.registrations = none ∧
          alLookup s.token out.core.contexts = none ∧
          alLookup ctx out.core.states = none) := by
  refine ⟨rfl, rfl, ?_, ?_⟩
  · intro bytes peer hdec
    simp [ServiceDiscovery.read, hdec]
  · intro ctx out hctx hout
    subst hout
    simp [ServiceDiscovery.read, ServiceDiscovery.terminate, hctx,
      alLookup_alErase_self]

/-- C5 witness: a concrete instance whose recv fails hard is dropped and its
context's state entry disappears from the core. -/
theorem c5_witness :
    (ServiceDiscovery.read ⟨0, 9999, ⟨"255.255.255.255", 9999⟩, false, [], [], [], [], 7⟩
        ⟨1, [(0, 5)], [(5, 0)]⟩ ⟨[(0, eventSetFor [])]⟩ RecvRes.errOther
        (fun _ => none) (fun _ => true) SendRes.okNone).sd = none ∧
    alLookup 5 (ServiceDiscovery.read
        ⟨0, 9999, ⟨"255.255.255.255", 9999⟩, false, [], [], [], [], 7⟩
        ⟨1, [(0, 5)], [(5, 0)]⟩ ⟨[(0, eventSetFor [])]⟩ RecvRes.errOther
        (fun _ => none) (fun _ => true) SendRes.okNone).core.states = none := by
  have h := (c5_read_error_handling
      ⟨0, 9999, ⟨"255.255.255.255", 9999⟩, false, [], [], [], [], 7⟩
      ⟨1, [(0, 5)], [(5, 0)]⟩ ⟨[(0, eventSetFor [])]⟩
      (fun _ => none) (fun _ => true) SendRes.okNone).2.2.2 5 _ rfl rfl
  exact ⟨h.1, h.2.2.2⟩

/-- C8: an inbound `Response(peer_listeners)` hands the listener list to
every registered observer and retains exactly those observers whose channel
send succeeds, in their original order. -/
theorem c8_response_fanout_drops_failed (s : ServiceDiscovery) (core : Core)
    (el : EventLoopState) (bytes : List Nat) (peer : SocketAddr)
    (L : List SocketAddr) (decode : List Nat → Option DiscoveryMsg)
    (obsOk : Nat → Bool) (sendRes : SendRes) (out : ReadOut)
    (hdec : decode bytes = some (DiscoveryMsg.Response L))
    (hout : s.read core el (RecvRes.okSome bytes peer) decode obsOk sendRes = out) :
    out.notified = s.observers.map (fun o => (o, L)) ∧
    out.sd = some { s with observers := s.observers.filter obsOk } ∧
    (∀ o, o ∈ s.observers.filter obsOk ↔ o ∈ s.observers ∧ obsOk o = true) ∧
    (s.observers.filter obsOk).Sublist s.observers := by
  subst hout
  refine ⟨?_, ?_, ?_, List.filter_sublist _⟩
  · simp [ServiceDiscovery.read, hdec]
  · simp [ServiceDiscovery.read, hdec]
  · intro o
    simp [List.mem_filter]

/-- C8 witness: with observers 1, 2, 3 and observer 2's channel closed, all
three are notified and observer 2 alone is dropped. -/
theorem c8_witness :
    (ServiceDiscovery.read ⟨0, 9999, ⟨"255.255.255.255", 9999⟩, false, [], [], [], [1, 2, 3], 7⟩
        ⟨1, [], []⟩ ⟨[]⟩ (RecvRes.okSome [] ⟨"1.2.3.4", 80⟩)
        (fun _ => some (DiscoveryMsg.Response [⟨"9.9.9.9", 1⟩])) (fun o => o != 2)
        SendRes.okNone).notified =
      [(1, [⟨"9.9.9.9", 1⟩]), (2, [⟨"9.9.9.9", 1⟩]), (3, [⟨"9.9.9.9", 1⟩])] ∧
    (ServiceDiscovery.read ⟨0, 9999, ⟨"255.255.255.255", 9999⟩, false, [], [], [], [1, 2, 3], 7⟩
        ⟨1, [], []⟩ ⟨[]⟩ (RecvRes.okSome [] ⟨"1.2.3.4", 80⟩)
        (fun _ => some (DiscoveryMsg.Response [⟨"9.9.9.9", 1⟩])) (fun o => o != 2)
        SendRes.okNone).sd =
      some ⟨0, 9999, ⟨"255.255.255.255", 9999⟩, false, [], [], [], [1, 3], 7⟩ := by
  have h := c8_response_fanout_drops_failed
      ⟨0, 9999, ⟨"255.255.255.255", 9999⟩, false, [], [], [], [1, 2, 3], 7⟩
      ⟨1, [], []⟩ ⟨[]⟩ [] ⟨"1.2.3.4", 80⟩ [⟨"9.9.9.9", 1⟩]
      (fun _ => some (DiscoveryMsg.Response [⟨"9.9.9.9", 1⟩])) (fun o => o != 2)
      SendRes.okNone _ rfl rfl
  exact ⟨h.1, h.2.1⟩

/-- C7: `terminate` deregisters the UDP socket from the event loop and
removes both the token→context entry and the context→state entry from the
core, in the same call: afterwards the reactor holds no registration, no
context and no state for this discovery instance. -/
theorem c7_terminate_removes_token_and_state (s : ServiceDiscovery)
    (core : Core) (el : EventLoopState) (ctx : Nat)
    (hctx : alLookup s.token core.contexts = some ctx) :
    alLookup s.token (s.terminate core el).2.registrations = none ∧
    alLookup s.token (s.terminate core el).1.contexts = none ∧
    alLookup ctx (s.terminate core el).1.states = none := by
  simp only [ServiceDiscovery.terminate, hctx]
  exact ⟨alLookup_alErase_self _ _, alLookup_alErase_self _ _,
    alLookup_alErase_self _ _⟩

/-- C7 witness: terminating a concrete instance owning token 0 under
context 5 clears its context and state entries. -/
theorem c7_witness :
    alLookup 0 ((ServiceDiscovery.terminate
        ⟨0, 9999, ⟨"255.255.255.255", 9999⟩, false, [], [], [], [], 7⟩
        ⟨1, [(0, 5)], [(5, 0)]⟩ ⟨[(0, eventSetFor [])]⟩).1.contexts) = none ∧
    alLookup 5 ((ServiceDiscovery.terminate
        ⟨0, 9999, ⟨"255.255.255.255", 9999⟩, false, [], [], [], [], 7⟩
        ⟨1, [(0, 5)], [(5, 0)]⟩ ⟨[(0, eventSetFor [])]⟩).1.states) = none := by
  have h := c7_terminate_removes_token_and_state
      ⟨0, 9999, ⟨"255.255.255.255", 9999⟩, false, [], [], [], [], 7⟩
      ⟨1, [(0, 5)], [(5, 0)]⟩ ⟨[(0, eventSetFor [])]⟩ 5 rfl
  exact ⟨h.2.1, h.2.2⟩

/-- C9: `seek_peers` sends the request pre-serialised at start with the
instance's guid to the broadcast address and modifies no field of the state;
successive calls therefore send byte-identical data. -/
theorem c9_seek_peers_idempotent (free : SocketAddr → Bool) (guid : Nat)
    (ls : List MappedAddr) (ctx port : Nat) (core : Core) (el : EventLoopState)
    (t : ServiceDiscovery × Core × EventLoopState) (res res' : SendRes)
    (hstart : ServiceDiscovery.start free guid ls ctx port core el = Except.ok t) :
    (t.1.seek_peers res).sd = t.1 ∧
    (t.1.seek_peers res).sent =
      (serialiseBytes (DiscoveryMsg.Request guid), t.1.remote_addr) ∧
    ((t.1.seek_peers res).sd.seek_peers res').sent = (t.1.seek_peers res).sent := by
  have hreq : t.1.seek_peers_req = serialiseBytes (DiscoveryMsg.Request guid) := by
    cases hg : get_socket free port with
    | ok q =>
        simp only [ServiceDiscovery.start, hg] at hstart
        simp only [Except.ok.injEq] at hstart
        subst hstart
        rfl
    | error e =>
        simp only [ServiceDiscovery.start, hg] at hstart
        exact Except.noConfusion hstart
  have hsd : (t.1.seek_peers res).sd = t.1 := by cases res <;> rfl
  have hsent : (t.1.seek_peers res).sent = (t.1.seek_peers_req, t.1.remote_addr) := by
    cases res <;> rfl
  have hsent' : (t.1.seek_peers res').sent = (t.1.seek_peers_req, t.1.remote_addr) := by
    cases res' <;> rfl
  refine ⟨hsd, by rw [hsent, hreq], ?_⟩
  rw [hsd, hsent', hsent]

/-- C9 witness: the started instance broadcasting on 9999 sends exactly its
pre-serialised request to the broadcast address. -/
theorem c9_witness :
    ((ServiceDiscovery.mk 3 10000 ⟨"255.255.255.255", 9999⟩ false []
        (serialiseBytes (DiscoveryMsg.Request 7)) [] [] 7).seek_peers
        SendRes.okNone).sent =
      (serialiseBytes (DiscoveryMsg.Request 7), ⟨"255.255.255.255", 9999⟩) := by
  have h := c9_seek_peers_idempotent (fun a => a.port != 9999) 7 [] 5 9999
      ⟨3, [], []⟩ ⟨[]⟩ _ SendRes.okNone SendRes.okNone rfl
  exact h.2.1

/-- C10: `start` fixes the broadcast target to `255.255.255.255` at the
requested port even when `get_socket` bound the socket at a higher port, so
`seek_peers` always broadcasts to the originally requested port. -/
theorem c10_broadcast_uses_requested_port (free : SocketAddr → Bool)
    (guid : Nat) (ls : List MappedAddr) (ctx port : Nat) (core : Core)
    (el : EventLoopState) (t : ServiceDiscovery × Core × EventLoopState)
    (res : SendRes)
    (hstart : ServiceDiscovery.start free guid ls ctx port core el = Except.ok t) :
    t.1.remote_addr = ⟨"255.255.255.255", port⟩ ∧
    get_socket free port = Except.ok t.1.socket ∧
    (t.1.seek_peers res).sent.2 = ⟨"255.255.255.255", port⟩ := by
  cases hg : get_socket free port with
  | ok q =>
      simp only [ServiceDiscovery.start, hg] at hstart
      simp only [Except.ok.injEq] at hstart
      subst hstart
      refine ⟨rfl, rfl, ?_⟩
      cases res <;> rfl
  | error e =>
      simp only [ServiceDiscovery.start, hg] at hstart
      exact Except.noConfusion hstart

/-- C10 witness: requesting the busy port 9999 binds the socket at 10000
while the broadcast target keeps port 9999. -/
theorem c10_witness :
    (ServiceDiscovery.mk 3 10000 ⟨"255.255.255.255", 9999⟩ false []
        (serialiseBytes (DiscoveryMsg.Request 7)) [] [] 7).remote_addr =
      ⟨"255.255.255.255", 9999⟩ ∧
    get_socket (fun a => a.port != 9999) 9999 = Except.ok 10000 := by
  have h := c10_broadcast_uses_requested_port (fun a => a.port != 9999) 7 [] 5
      9999 ⟨3, [], []⟩ ⟨[]⟩ _ SendRes.okNone rfl
  exact ⟨h.1, h.2.1⟩

set_option maxRecDepth 100000 in
/-- C6 counterexample: 41 non-restricted copies of the spec's example
address `138.139.140.150:54321` in `our_listeners` make the `Response`
payload built by `write_impl` serialise to 1034 bytes, not under the
1024-byte receive buffer. -/
theorem c6_counterexample :
    ¬ ((serialiseBytes (DiscoveryMsg.Response
        (((List.replicate 41 (MappedAddr.mk ⟨"138.139.140.150", 54321⟩ false)).filter
            (fun e => !e.nat_restricted)).map (fun e => e.addr)))).length <
      read_buf_size) := by
  decide

/-- C6 (amended): the serialised `Request` is always under the 1024-byte
receive buffer, and a serialised `Response` is under it provided the encoded
addresses total under 1015 bytes — but not for every possible contents of
`our_listeners`. -/
theorem c6_amended_datagram_sizes (g : Nat) (l : List SocketAddr)
    (h : ((l.map addrBytes).flatten).length < 1015) :
    (serialiseBytes (DiscoveryMsg.Request g)).length < read_buf_size ∧
    (serialiseBytes (DiscoveryMsg.Response l)).length < read_buf_size := by
  constructor
  · rw [length_serialise_request]
    norm_num [read_buf_size]
  · rw [length_serialise_response]
    simp only [read_buf_size]
    omega

/-- C6 witness: the request with guid 7 and a response listing one address
both fit in the receive buffer. -/
theorem c6_witness :
    (serialiseBytes (DiscoveryMsg.Request 7)).length < read_buf_size ∧
    (serialiseBytes (DiscoveryMsg.Response
        [⟨"138.139.140.150", 54321⟩])).length < read_buf_size :=
  c6_amended_datagram_sizes 7 [⟨"138.139.140.150", 54321⟩] (by decide)
